import Mathlib

/-!
Shallow embedding of the pvAccessCPP shared-state server core
(`src/server/sharedstate_channel.cpp`) and of the channel-provider registry
(`ChannelProviderRegistryImpl`, factory registration).

Modelling conventions:
* Opaque collaborator objects (providers, type descriptors, structured
  values, bit sets, handlers, requesters, channels, monitors) are identified
  by `Nat` ids; the core only stores and forwards them.
* Each mutex-guarded critical section of the source is one atomic Lean
  function from state to state; callbacks made after releasing the lock are
  returned as an ordered `List Event`, so lock-linearized interleavings are
  sequences of these atomic steps.
* A `weak_ptr` is modelled by the outcome of resolving it: an `Option` that
  is `none` exactly when the referent has expired.
-/

set_option maxHeartbeats 1000000
set_option linter.unusedVariables false

namespace Pvas

/-- `epics::pvData::Status`: completion status carried to requesters.
`Status.ok` is the default-constructed OK status `pvd::Status()`. -/
inductive Status where
  | ok
  | error (msg : String)
deriving DecidableEq

/-- Message severity (`pvd::infoMessage` / `pvd::warningMessage`). -/
inductive Severity where
  | info
  | warning
deriving DecidableEq

/-- Observable callbacks the shared-state core makes into user code, in
order.  Each constructor records the callback target id and arguments. -/
inductive Event where
  | onFirstConnect (h : Nat)
  | onLastDisconnect (h : Nat)
  | getDone (r : Nat) (sts : Status) (t : Nat)
  | putConnect (r : Nat) (sts : Status) (t : Nat)
  | rpcConnect (r : Nat) (sts : Status)
  | monNotify (m : Nat)
  | opComplete (r : Nat) (sts : Status) (v : Option Nat)
  | message (r : Nat) (msg : String) (sev : Severity)
deriving DecidableEq

/-- State of one `SharedPV` (shared record): the bookkeeping guarded by the
record's single mutex.  `channels`/`monitors` hold attached channel/monitor
ids; `puts`/`rpcs` hold `(operation id, requester id)` pairs, since each
registered `SharedPut*`/`SharedRPC*` carries its requester; `getfields` is
the queue of pending type-discovery requesters; `type` is the type
descriptor, absent until the record is opened; `current`/`valid` are the
current value and its validity; `handler` is the optional lifecycle
handler. -/
structure PVState where
  channels : List Nat
  getfields : List Nat
  puts : List (Nat × Nat)
  rpcs : List (Nat × Nat)
  monitors : List Nat
  type : Option Nat
  current : Nat
  valid : Nat
  handler : Option Nat
deriving DecidableEq

/-- `SharedChannel::SharedChannel` (sharedstate_channel.cpp:30-58): under the
record's lock, capture the handler iff the channel set was empty before the
append, then append; after releasing the lock invoke `onFirstConnect` iff a
handler was captured. -/
def SharedChannel.construct (pv : PVState) (c : Nat) : PVState × List Event :=
  let handler := if pv.channels.isEmpty then pv.handler else none
  ({ pv with channels := pv.channels ++ [c] },
   (handler.map Event.onFirstConnect).toList)

/-- `SharedChannel::~SharedChannel` (sharedstate_channel.cpp:60-84): under
the record's lock remove this channel (`std::list::remove`, i.e. drop every
equal element) and, if the set is now empty, capture the handler (the inner
re-lock of the same recursive mutex is within the same critical section);
after releasing the lock invoke `onLastDisconnect` iff captured. -/
def SharedChannel.destruct (pv : PVState) (c : Nat) : PVState × List Event :=
  let chans := pv.channels.filter (fun x => x != c)
  let handler := if chans.isEmpty then pv.handler else none
  ({ pv with channels := chans },
   (handler.map Event.onLastDisconnect).toList)

/-- A sequence of channel constructions linearized by the record's lock. -/
def constructSeq : PVState → List Nat → PVState × List Event
  | pv, [] => (pv, [])
  | pv, c :: rest =>
    let s1 := SharedChannel.construct pv c
    let s2 := constructSeq s1.fst rest
    (s2.fst, s1.snd ++ s2.snd)

/-- `SharedChannel::getField` (sharedstate_channel.cpp:108-120): under the
lock read the type descriptor; if absent, enqueue the requester on
`getfields`; after releasing the lock, call `getDone` iff the descriptor was
present. -/
def SharedChannel.getField (pv : PVState) (requester : Nat) : PVState × List Event :=
  match pv.type with
  | some desc => (pv, [Event.getDone requester Status.ok desc])
  | none => ({ pv with getfields := pv.getfields ++ [requester] }, [])

/-- `SharedChannel::createChannelPut` (sharedstate_channel.cpp:122-138):
always construct the `SharedPut` and register it in `puts` under the lock,
reading the type; after releasing the lock call `channelPutConnect` iff the
type was present. -/
def SharedChannel.createChannelPut (pv : PVState) (op requester : Nat) : PVState × List Event :=
  let pv2 := { pv with puts := pv.puts ++ [(op, requester)] }
  match pv.type with
  | some t => (pv2, [Event.putConnect requester Status.ok t])
  | none => (pv2, [])

/-- `SharedChannel::createChannelRPC` (sharedstate_channel.cpp:140-154):
always construct the `SharedRPC` and register it in `rpcs` under the lock,
recording whether the record is opened; after releasing the lock call
`channelRPCConnect` iff it was. -/
def SharedChannel.createChannelRPC (pv : PVState) (op requester : Nat) : PVState × List Event :=
  let pv2 := { pv with rpcs := pv.rpcs ++ [(op, requester)] }
  match pv.type with
  | some _ => (pv2, [Event.rpcConnect requester Status.ok])
  | none => (pv2, [])

/-- Modelled from the spec: the per-subscriber monitor queue
(`pva::MonitorFIFO`, outside this tree).  `opened` holds the type descriptor
once `open(type)` has been called; `queue` is the ordered list of posted
`(value, valid)` updates. -/
structure MonitorFIFO where
  opened : Option Nat
  queue : List (Nat × Nat)
deriving DecidableEq

/-- Modelled from the spec: `MonitorFIFO::open(type)` readies the queue. -/
def MonitorFIFO.openQ (f : MonitorFIFO) (t : Nat) : MonitorFIFO :=
  { f with opened := some t }

/-- Modelled from the spec: `MonitorFIFO::post(value, valid)` appends one
update to the queue; delivery order is queue order. -/
def MonitorFIFO.post (f : MonitorFIFO) (v valid : Nat) : MonitorFIFO :=
  { f with queue := f.queue ++ [(v, valid)] }

/-- The freshly constructed `SharedMonitorFIFO`: not yet opened, empty. -/
def MonitorFIFO.fresh : MonitorFIFO :=
  { opened := none, queue := [] }

/-- `SharedChannel::createMonitor` (sharedstate_channel.cpp:156-175): under
the lock register the new queue in `monitors` and, iff the record is opened,
open the queue with the current type and post one snapshot of
`(current, valid)`; after releasing the lock call `notify` iff opened.
Returns the record state, the queue state, and the post-lock events. -/
def SharedChannel.createMonitor (pv : PVState) (m : Nat) : PVState × MonitorFIFO × List Event :=
  let pv2 := { pv with monitors := pv.monitors ++ [m] }
  match pv.type with
  | some t =>
    let fifo := (MonitorFIFO.fresh.openQ t).post pv.current pv.valid
    (pv2, fifo, [Event.monNotify m])
  | none => (pv2, MonitorFIFO.fresh, [])

/-- Modelled from the spec: the shared record's type-establishment step
(`SharedPV::open`, implemented in sharedstate_pv.cpp, not part of this
tree): when the type descriptor becomes known, every queued `getfields`
requester is notified exactly once and the queue cleared, and every
registered put/rpc operation receives its deferred connect notification. -/
def SharedPV.openPV (pv : PVState) (t : Nat) : PVState × List Event :=
  let es :=
    pv.getfields.map (fun r => Event.getDone r Status.ok t)
    ++ pv.puts.map (fun p => Event.putConnect p.snd Status.ok t)
    ++ pv.rpcs.map (fun p => Event.rpcConnect p.snd Status.ok)
  ({ pv with type := some t, getfields := [] }, es)

/-- The channel object as seen through a resolved weak reference; only its
name is consulted by `Operation::channelName`. -/
structure ChannelView where
  channelName : String
deriving DecidableEq

/-- `SharedChannel::getChannelName` (sharedstate_channel.cpp:98-101). -/
def ChannelView.getChannelName (ch : ChannelView) : String :=
  ch.channelName

/-- Resolved view of an `Operation::Impl`: the single-use `done` flag, and
the outcomes of resolving the weak references to the requester and to the
owning channel (`none` = expired). -/
structure ImplState where
  done : Bool
  requester : Option Nat
  channel : Option ChannelView
deriving DecidableEq

/-- Modelled from the spec: `Operation::Impl::complete(status, value)`
(implemented per operation kind in sharedstate_put.cpp /
sharedstate_rpc.cpp, not part of this tree): the first call marks the
operation done and notifies the requester iff it is still reachable; a call
on an already-done operation is a no-op that never re-notifies. -/
def Impl.complete (s : ImplState) (sts : Status) (val : Option Nat) : ImplState × List Event :=
  if s.done then (s, [])
  else
    ({ s with done := true },
      (s.requester.map (fun r => Event.opComplete r sts val)).toList)

/-- `Operation::complete()` (sharedstate_channel.cpp:220-223). -/
def Operation.completePlain (s : ImplState) : ImplState × List Event :=
  Impl.complete s Status.ok none

/-- `Operation::complete(const Status&)` (sharedstate_channel.cpp:225-228). -/
def Operation.completeStatus (s : ImplState) (sts : Status) : ImplState × List Event :=
  Impl.complete s sts none

/-- `Operation::complete(const PVStructure&, const BitSet&)`
(sharedstate_channel.cpp:230-234): forwards only the value, with a
default-constructed (OK) status; the `changed` argument is not forwarded. -/
def Operation.completeValue (s : ImplState) (value : Nat) (changed : Nat) : ImplState × List Event :=
  Impl.complete s Status.ok (some value)

/-- One call to any of the three completion entry points. -/
inductive CompleteCall where
  | plain
  | withStatus (sts : Status)
  | withValue (value : Nat) (changed : Nat)
deriving DecidableEq

/-- Dispatch a `CompleteCall` to the corresponding entry point. -/
def Operation.completeCall (s : ImplState) : CompleteCall → ImplState × List Event
  | CompleteCall.plain => Operation.completePlain s
  | CompleteCall.withStatus sts => Operation.completeStatus s sts
  | CompleteCall.withValue v c => Operation.completeValue s v c

/-- `Operation::Impl::Cleanup::operator()` (sharedstate_channel.cpp:271-281):
under the impl's lock read whether the operation is still pending; if so,
synthesize a failure completion with error status "Implicit Cancel"; then
release (delete) the impl. -/
def Impl.Cleanup.run (s : ImplState) : ImplState × List Event :=
  let err := !s.done
  if err then Impl.complete s (Status.error ("Implicit Cancel")) none
  else (s, [])

/-- `Operation::channelName` (sharedstate_channel.cpp:210-218): resolve the
owning channel; return its name, or the empty string if it expired. -/
def Operation.channelName (s : ImplState) : String :=
  match s.channel with
  | some chan => chan.getChannelName
  | none => ""

/-- `Operation::info` (sharedstate_channel.cpp:236-241): deliver the message
to the requester iff its weak reference still resolves. -/
def Operation.info (s : ImplState) (msg : String) : List Event :=
  (s.requester.map (fun r => Event.message r msg Severity.info)).toList

/-- `Operation::warn` (sharedstate_channel.cpp:243-248): as `info`, with
warning severity. -/
def Operation.warn (s : ImplState) (msg : String) : List Event :=
  (s.requester.map (fun r => Event.message r msg Severity.warning)).toList

/-- A registered channel-provider factory (`ChannelProviderFactory`):
its declared name and the provider instances it produces (ids). -/
structure ChannelProviderFactory where
  getFactoryName : String
  sharedInstance : Nat
  newInstance : Nat
deriving DecidableEq

/-- The process-wide factory map `channelProviders`, keyed by name.  The
`std::map` is modelled as a key-unique association list: assignment and
erase are by key, lookup is by key. -/
structure Registry where
  providers : List (String × ChannelProviderFactory)
deriving DecidableEq

/-- Key-based assignment, `channelProviders[name] = factory` (replaces any
prior entry of the same name). -/
def mapInsert (k : String) (f : ChannelProviderFactory)
    (m : List (String × ChannelProviderFactory)) : List (String × ChannelProviderFactory) :=
  (k, f) :: m.filter (fun p => p.fst != k)

/-- Key-based erase, `channelProviders.erase(name)`. -/
def mapEraseKey (k : String)
    (m : List (String × ChannelProviderFactory)) : List (String × ChannelProviderFactory) :=
  m.filter (fun p => p.fst != k)

/-- The backward-compatibility redirect applied by both lookup operations:
the historical name "pvAccess" becomes the canonical "pva" before the map
lookup (part_000 lines 36-37 and 49-50). -/
def canonicalName (n : String) : String :=
  if n = "pvAccess" then "pva" else n

/-- `ChannelProviderRegistryImpl::getProvider` (part_000:34-45): redirect the
name, look the factory up, and return its shared instance; empty if the
name is unknown. -/
def ChannelProviderRegistryImpl.getProvider (reg : Registry) (name0 : String) : Option Nat :=
  match List.lookup (canonicalName name0) reg.providers with
  | some f => some f.sharedInstance
  | none => none

/-- `ChannelProviderRegistryImpl::createProvider` (part_000:47-58): redirect
the name, look the factory up, and return a new instance; empty if the name
is unknown. -/
def ChannelProviderRegistryImpl.createProvider (reg : Registry) (name0 : String) : Option Nat :=
  match List.lookup (canonicalName name0) reg.providers with
  | some f => some f.newInstance
  | none => none

/-- `registerChannelProviderFactory` (part_000:81-84). -/
def registerChannelProviderFactory (reg : Registry) (f : ChannelProviderFactory) : Registry :=
  { providers := mapInsert f.getFactoryName f reg.providers }

/-- `unregisterChannelProviderFactory` (part_000:86-89). -/
def unregisterChannelProviderFactory (reg : Registry) (f : ChannelProviderFactory) : Registry :=
  { providers := mapEraseKey f.getFactoryName reg.providers }

/-- Is this event a first-connect notification? -/
def Event.isFirstConnectEv : Event → Bool
  | Event.onFirstConnect _ => true
  | _ => false

/-- Is this event a `getDone` delivered to requester `r`? -/
def Event.isGetDoneFor (r : Nat) : Event → Bool
  | Event.getDone r2 _ _ => r2 == r
  | _ => false

/-- Is this event a `channelPutConnect` delivered to requester `r`? -/
def Event.isPutConnectFor (r : Nat) : Event → Bool
  | Event.putConnect r2 _ _ => r2 == r
  | _ => false

/-- Is this event a `channelRPCConnect` delivered to requester `r`? -/
def Event.isRpcConnectFor (r : Nat) : Event → Bool
  | Event.rpcConnect r2 _ => r2 == r
  | _ => false

/-- A closed, not-yet-opened record with a lifecycle handler attached. -/
def pvEmpty : PVState :=
  { channels := [], getfields := [], puts := [], rpcs := [], monitors := [],
    type := none, current := 0, valid := 0, handler := some 1 }

/-- An already-opened record (type descriptor 5, value 42, validity 1). -/
def pvOpened : PVState :=
  { pvEmpty with type := some 5, current := 42, valid := 1 }

/-- A pending operation whose requester (id 3) is still reachable. -/
def implPending : ImplState :=
  { done := false, requester := some 3, channel := none }

/-- A pending operation whose requester has expired. -/
def implExpired : ImplState :=
  { done := false, requester := none, channel := none }

/-- An already-completed operation. -/
def implDone : ImplState :=
  { done := true, requester := some 3, channel := none }

/-- A factory declaring the historical alias itself as its name. -/
def fPvAccess : ChannelProviderFactory :=
  { getFactoryName := "pvAccess", sharedInstance := 1, newInstance := 2 }

/-- A factory with an ordinary name. -/
def fDemo : ChannelProviderFactory :=
  { getFactoryName := "demo", sharedInstance := 1, newInstance := 2 }

/-- The empty registry. -/
def regEmpty : Registry := { providers := [] }

/-- Helper: every completion entry point leaves the operation done. -/
theorem completeCall_fst_done (s : ImplState) (a : CompleteCall) :
    (Operation.completeCall s a).fst.done = true := by
  cases a <;> cases hsd : s.done <;>
    simp [Operation.completeCall, Operation.completePlain, Operation.completeStatus,
      Operation.completeValue, Impl.complete, hsd]

/-- Helper: on an already-done operation, every completion entry point
delivers nothing. -/
theorem completeCall_done_noop (s : ImplState) (a : CompleteCall) (h : s.done = true) :
    (Operation.completeCall s a).snd = [] := by
  cases a <;>
    simp [Operation.completeCall, Operation.completePlain, Operation.completeStatus,
      Operation.completeValue, Impl.complete, h]

/-- C1: destroying a pending Operation (done flag unset) synthesizes exactly
one failure completion with error "Implicit Cancel" (delivered when the
requester is still reachable, silently absorbed when it expired); destroying
an already-completed Operation synthesizes no additional completion. -/
theorem cleanup_implicit_cancel (s : ImplState) (r : Nat) :
    (s.done = false → s.requester = some r →
      (Impl.Cleanup.run s).snd
        = [Event.opComplete r (Status.error ("Implicit Cancel")) none]) ∧
    (s.done = false → s.requester = none → (Impl.Cleanup.run s).snd = []) ∧
    (s.done = true → (Impl.Cleanup.run s).snd = []) := by
  refine ⟨fun hd hr => ?_, fun hd hr => ?_, fun hd => ?_⟩ <;>
    simp_all [Impl.Cleanup.run, Impl.complete]

/-- C1 witness: at the concrete pending operation with requester 3, cleanup
emits the one Implicit Cancel completion; at the completed one, nothing. -/
theorem cleanup_implicit_cancel_witness :
    (Impl.Cleanup.run implPending).snd
      = [Event.opComplete 3 (Status.error ("Implicit Cancel")) none] ∧
    (Impl.Cleanup.run implDone).snd = [] :=
  ⟨(cleanup_implicit_cancel implPending 3).1 rfl rfl,
   (cleanup_implicit_cancel implDone 3).2.2 rfl⟩

/-- C4: the first call to any completion entry point is authoritative (one
notification when the operation was pending and the requester reachable,
and the operation is done afterwards); any second call to any entry point
delivers no notification. -/
theorem complete_single_use (s : ImplState) (r : Nat) (a b : CompleteCall) :
    ((Operation.completeCall (Operation.completeCall s a).fst b).snd = []) ∧
    ((Operation.completeCall s a).fst.done = true) ∧
    (s.done = false → s.requester = some r →
      (Operation.completeCall s a).snd.length = 1) ∧
    (s.done = true → (Operation.completeCall s a).snd = []) := by
  refine ⟨completeCall_done_noop _ b (completeCall_fst_done s a),
    completeCall_fst_done s a, fun hd hr => ?_, fun hd => completeCall_done_noop s a hd⟩
  cases a <;>
    simp [Operation.completeCall, Operation.completePlain, Operation.completeStatus,
      Operation.completeValue, Impl.complete, hd, hr]

/-- C4 witness: completing the concrete pending operation twice delivers one
notification the first time and none the second. -/
theorem complete_single_use_witness :
    ((Operation.completeCall (Operation.completeCall implPending CompleteCall.plain).fst
        (CompleteCall.withStatus (Status.error ("oops")))).snd = []) ∧
    (Operation.completeCall implPending CompleteCall.plain).snd.length = 1 :=
  ⟨(complete_single_use implPending 3 CompleteCall.plain
      (CompleteCall.withStatus (Status.error ("oops")))).1,
   (complete_single_use implPending 3 CompleteCall.plain CompleteCall.plain).2.2.1 rfl rfl⟩

/-- C9: an expired weak reference is a valid non-faulting outcome:
`channelName` returns the empty string when the owning channel is gone (and
the channel's name when it is not), and `info`/`warn` deliver the message
exactly when the requester is still reachable, silently dropping it
otherwise. -/
theorem operation_weakref_nonfaulting (s : ImplState) (r : Nat) (msg : String) :
    (s.channel = none → Operation.channelName s = "") ∧
    (∀ ch, s.channel = some ch → Operation.channelName s = ch.channelName) ∧
    (s.requester = some r →
      Operation.info s msg = [Event.message r msg Severity.info] ∧
      Operation.warn s msg = [Event.message r msg Severity.warning]) ∧
    (s.requester = none → Operation.info s msg = [] ∧ Operation.warn s msg = []) := by
  refine ⟨fun h => ?_, fun ch h => ?_, fun h => ?_, fun h => ?_⟩ <;>
    simp [Operation.channelName, Operation.info, Operation.warn,
      ChannelView.getChannelName, h]

/-- C9 witness: at the concrete operation whose channel expired but whose
requester 3 is reachable, `channelName` is empty and `info` delivers. -/
theorem operation_weakref_nonfaulting_witness :
    Operation.channelName implPending = "" ∧
    Operation.info implPending "hi" = [Event.message 3 "hi" Severity.info] ∧
    Operation.info implExpired "hi" = [] :=
  ⟨(operation_weakref_nonfaulting implPending 3 "hi").1 rfl,
   ((operation_weakref_nonfaulting implPending 3 "hi").2.2.1 rfl).1,
   ((operation_weakref_nonfaulting implExpired 3 "hi").2.2.2 rfl).1⟩

/-- C10: the three-argument `complete(value, changes)` forwards only the
value together with an unconditional OK status to the single-use completion;
the change-set argument is discarded — the result never depends on it, and
the delivered notification carries the OK status and the value only. -/
theorem completeValue_discards_changeset (s : ImplState) (r v c c2 : Nat) :
    (Operation.completeValue s v c = Impl.complete s Status.ok (some v)) ∧
    (Operation.completeValue s v c = Operation.completeValue s v c2) ∧
    (s.done = false → s.requester = some r →
      (Operation.completeValue s v c).snd = [Event.opComplete r Status.ok (some v)]) := by
  refine ⟨rfl, rfl, fun hd hr => ?_⟩
  simp [Operation.completeValue, Impl.complete, hd, hr]

/-- C10 witness: at the concrete pending operation, completing with value 42
and change-set 6 delivers the OK completion carrying 42 and not the 6. -/
theorem completeValue_discards_changeset_witness :
    (Operation.completeValue implPending 42 6).snd
      = [Event.opComplete 3 Status.ok (some 42)] :=
  (completeValue_discards_changeset implPending 3 42 6 99).2.2 rfl rfl

/-- C7: for every registry state, lookup and creation by the historical name
"pvAccess" yield the same outcome as by the canonical name "pva": the
historical name is redirected before the map lookup. -/
theorem provider_alias_redirect (reg : Registry) :
    ChannelProviderRegistryImpl.getProvider reg "pvAccess"
      = ChannelProviderRegistryImpl.getProvider reg "pva" ∧
    ChannelProviderRegistryImpl.createProvider reg "pvAccess"
      = ChannelProviderRegistryImpl.createProvider reg "pva" := by
  have h1 : canonicalName "pvAccess" = "pva" := by decide
  have h2 : canonicalName "pva" = "pva" := by decide
  constructor <;>
    simp [ChannelProviderRegistryImpl.getProvider,
      ChannelProviderRegistryImpl.createProvider, h1, h2]

/-- Helper: constructing a channel never empties the channel set and never
touches the handler. -/
theorem construct_channels_handler (pv : PVState) (c : Nat) :
    (SharedChannel.construct pv c).fst.channels = pv.channels ++ [c] ∧
    (SharedChannel.construct pv c).fst.handler = pv.handler := ⟨rfl, rfl⟩

/-- Helper: a lock-linearized sequence of channel constructions starting
from a record whose channel set is nonempty fires no first-connect
notification. -/
theorem constructSeq_nonempty_no_first (order : List Nat) :
    ∀ pv : PVState, pv.channels ≠ [] →
      (constructSeq pv order).snd.countP Event.isFirstConnectEv = 0 := by
  induction order with
  | nil => intro pv h; simp [constructSeq]
  | cons c rest ih =>
    intro pv h
    have h1 : pv.channels.isEmpty = false := by
      simpa [List.isEmpty_iff] using h
    have h2 : (SharedChannel.construct pv c).fst.channels ≠ [] := by
      simp [SharedChannel.construct]
    simp only [constructSeq, List.countP_append]
    rw [ih _ h2]
    simp [SharedChannel.construct, h1]

/-- C2: constructing a Channel appends it to the record's channel set with
the handler untouched; the first-connect notification is emitted iff the set
was empty immediately before the append (handler attached); hence over any
lock-linearized sequence of concurrent opens starting from an empty set, the
notification fires exactly once. -/
theorem sharedchannel_first_connect (pv : PVState) (c hd : Nat) (order : List Nat) :
    ((SharedChannel.construct pv c).fst.channels = pv.channels ++ [c]) ∧
    (pv.handler = some hd →
      ((SharedChannel.construct pv c).snd = [Event.onFirstConnect hd] ↔ pv.channels = [])) ∧
    (pv.channels = [] → pv.handler = some hd → order ≠ [] →
      (constructSeq pv order).snd.countP Event.isFirstConnectEv = 1) := by
  refine ⟨rfl, fun hh => ?_, fun hc hh ho => ?_⟩
  · cases he : pv.channels.isEmpty
    · have : pv.channels ≠ [] := by simpa [List.isEmpty_iff] using he
      simp [SharedChannel.construct, he, this]
    · have : pv.channels = [] := by simpa [List.isEmpty_iff] using he
      simp [SharedChannel.construct, he, hh, this]
  · cases order with
    | nil => exact absurd rfl ho
    | cons c0 rest =>
      have h2 : (SharedChannel.construct pv c0).fst.channels ≠ [] := by
        simp [SharedChannel.construct]
      simp only [constructSeq, List.countP_append]
      rw [constructSeq_nonempty_no_first rest _ h2]
      simp [SharedChannel.construct, hc, hh, Event.isFirstConnectEv]

/-- C2 witness: opening channels 10 then 11 against the concrete empty
record with handler 1 fires first-connect exactly once. -/
theorem sharedchannel_first_connect_witness :
    (constructSeq pvEmpty [10, 11]).snd.countP Event.isFirstConnectEv = 1 :=
  (sharedchannel_first_connect pvEmpty 10 1 [10, 11]).2.2 rfl rfl (by simp)

/-- C3: destroying a Channel removes it from the record's channel set (the
removal and the emptiness check form one critical section), and the
last-disconnect notification is emitted, after lock release, iff the set
became empty as a result (handler attached). -/
theorem sharedchannel_last_disconnect (pv : PVState) (c hd : Nat) :
    ((SharedChannel.destruct pv c).fst.channels = pv.channels.filter (fun x => x != c)) ∧
    (pv.handler = some hd →
      ((SharedChannel.destruct pv c).snd = [Event.onLastDisconnect hd]
        ↔ pv.channels.filter (fun x => x != c) = [])) := by
  refine ⟨rfl, fun hh => ?_⟩
  cases he : (pv.channels.filter (fun x => x != c)).isEmpty
  · have : pv.channels.filter (fun x => x != c) ≠ [] := by
      simpa [List.isEmpty_iff] using he
    simp [SharedChannel.destruct, he, this]
  · have : pv.channels.filter (fun x => x != c) = [] := by
      simpa [List.isEmpty_iff] using he
    simp [SharedChannel.destruct, he, hh, this]

/-- C3 witness: destroying the only attached channel 7 of the concrete
record with handler 1 emits the last-disconnect notification. -/
theorem sharedchannel_last_disconnect_witness :
    (SharedChannel.destruct { pvEmpty with channels := [7] } 7).snd
      = [Event.onLastDisconnect 1] :=
  ((sharedchannel_last_disconnect { pvEmpty with channels := [7] } 7 1).2 rfl).mpr (by decide)

/-- C6: creating a Monitor always registers the queue in the record's
monitor set; against an opened record the queue is opened with the current
type and seeded with exactly one snapshot equal to the current value and
validity, the subscriber is notified after lock release, and any
subsequently posted update lands behind the snapshot; against an unopened
record the queue is registered but neither opened, seeded, nor notified. -/
theorem createMonitor_snapshot (pv : PVState) (m u v2 b2 : Nat) :
    ((SharedChannel.createMonitor pv m).fst.monitors = pv.monitors ++ [m]) ∧
    (pv.type = some u →
      (SharedChannel.createMonitor pv m).snd.fst
        = { opened := some u, queue := [(pv.current, pv.valid)] } ∧
      (SharedChannel.createMonitor pv m).snd.snd = [Event.monNotify m] ∧
      (((SharedChannel.createMonitor pv m).snd.fst.post v2 b2).queue).head?
        = some (pv.current, pv.valid)) ∧
    (pv.type = none →
      (SharedChannel.createMonitor pv m).snd.fst = MonitorFIFO.fresh ∧
      (SharedChannel.createMonitor pv m).snd.snd = []) := by
  refine ⟨?_, fun ht => ?_, fun ht => ?_⟩
  · cases h : pv.type <;> simp [SharedChannel.createMonitor, h]
  · simp [SharedChannel.createMonitor, ht, MonitorFIFO.fresh, MonitorFIFO.openQ,
      MonitorFIFO.post]
  · simp [SharedChannel.createMonitor, ht]

/-- C6 witness: creating monitor 9 against the concrete opened record (type
5, value 42, validity 1) seeds one equal snapshot and notifies once. -/
theorem createMonitor_snapshot_witness :
    (SharedChannel.createMonitor pvOpened 9).snd.fst
      = { opened := some 5, queue := [(42, 1)] } ∧
    (SharedChannel.createMonitor pvOpened 9).snd.snd = [Event.monNotify 9] :=
  ⟨((createMonitor_snapshot pvOpened 9 5 0 0).2.1 rfl).1,
   ((createMonitor_snapshot pvOpened 9 5 0 0).2.1 rfl).2.1⟩

/-- Helper: when the type becomes known, the number of notifications the
record delivers to a given requester equals the number of its registered
attachments of each kind — one notification per attachment. -/
theorem openPV_counts (pv : PVState) (t r : Nat) :
    (SharedPV.openPV pv t).snd.countP (Event.isGetDoneFor r)
      = pv.getfields.countP (fun x => x == r) ∧
    (SharedPV.openPV pv t).snd.countP (Event.isPutConnectFor r)
      = pv.puts.countP (fun p => p.snd == r) ∧
    (SharedPV.openPV pv t).snd.countP (Event.isRpcConnectFor r)
      = pv.rpcs.countP (fun p => p.snd == r) := by
  refine ⟨?_, ?_, ?_⟩ <;>
    simp [SharedPV.openPV, List.countP_append, List.countP_map, Function.comp_def,
      Event.isGetDoneFor, Event.isPutConnectFor, Event.isRpcConnectFor,
      List.countP_false]

/-- C5 counterexample: against the concrete already-opened record (type
descriptor present), `getField` does not register its requester — requester
7 is absent from the pending `getfields` queue after the call, so the three
entry points do not all "always register". -/
theorem getField_known_type_not_registered :
    pvOpened.type = some 5 ∧
    ¬ (7 ∈ (SharedChannel.getField pvOpened 7).fst.getfields) := by
  constructor
  · rfl
  · decide

/-- C5 (amended): `createChannelPut` and `createChannelRPC` always register
their operation (with its requester) in the record; `getField` registers its
requester exactly when the type descriptor is not yet known; each entry
point notifies synchronously iff the type is already known, and otherwise
the notification is deferred until the type becomes known, firing exactly
once per attachment. -/
theorem register_and_deferred_connect (pv : PVState) (t u op r : Nat) :
    ((SharedChannel.createChannelPut pv op r).fst.puts = pv.puts ++ [(op, r)]) ∧
    ((SharedChannel.createChannelRPC pv op r).fst.rpcs = pv.rpcs ++ [(op, r)]) ∧
    (pv.type = some u →
      (SharedChannel.getField pv r).fst = pv ∧
      (SharedChannel.getField pv r).snd = [Event.getDone r Status.ok u] ∧
      (SharedChannel.createChannelPut pv op r).snd = [Event.putConnect r Status.ok u] ∧
      (SharedChannel.createChannelRPC pv op r).snd = [Event.rpcConnect r Status.ok]) ∧
    (pv.type = none →
      (SharedChannel.getField pv r).fst.getfields = pv.getfields ++ [r] ∧
      (SharedChannel.getField pv r).snd = [] ∧
      (SharedChannel.createChannelPut pv op r).snd = [] ∧
      (SharedChannel.createChannelRPC pv op r).snd = []) ∧
    (pv.type = none → pv.getfields.countP (fun x => x == r) = 0 →
      (SharedPV.openPV (SharedChannel.getField pv r).fst t).snd.countP
        (Event.isGetDoneFor r) = 1) ∧
    (pv.puts.countP (fun p => p.snd == r) = 0 →
      (SharedPV.openPV (SharedChannel.createChannelPut pv op r).fst t).snd.countP
        (Event.isPutConnectFor r) = 1) ∧
    (pv.rpcs.countP (fun p => p.snd == r) = 0 →
      (SharedPV.openPV (SharedChannel.createChannelRPC pv op r).fst t).snd.countP
        (Event.isRpcConnectFor r) = 1) := by
  refine ⟨?_, ?_, fun ht => ?_, fun ht => ?_, fun ht h0 => ?_, fun h0 => ?_, fun h0 => ?_⟩
  · cases h : pv.type <;> simp [SharedChannel.createChannelPut, h]
  · cases h : pv.type <;> simp [SharedChannel.createChannelRPC, h]
  · simp [SharedChannel.getField, SharedChannel.createChannelPut,
      SharedChannel.createChannelRPC, ht]
  · simp [SharedChannel.getField, SharedChannel.createChannelPut,
      SharedChannel.createChannelRPC, ht]
  · rw [(openPV_counts (SharedChannel.getField pv r).fst t r).1]
    simp [SharedChannel.getField, ht, List.countP_append, h0, List.countP_cons]
  · rw [(openPV_counts (SharedChannel.createChannelPut pv op r).fst t r).2.1]
    cases h : pv.type <;>
      simp [SharedChannel.createChannelPut, h, List.countP_append, h0, List.countP_cons]
  · rw [(openPV_counts (SharedChannel.createChannelRPC pv op r).fst t r).2.2]
    cases h : pv.type <;>
      simp [SharedChannel.createChannelRPC, h, List.countP_append, h0, List.countP_cons]

/-- C5 witness: against the concrete unopened record, a deferred `getField`
for requester 7 fires exactly one notification when the type becomes known,
and a put registered for requester 8 likewise. -/
theorem register_and_deferred_connect_witness :
    ((SharedPV.openPV (SharedChannel.getField pvEmpty 7).fst 5).snd.countP
      (Event.isGetDoneFor 7) = 1) ∧
    ((SharedPV.openPV (SharedChannel.createChannelPut pvEmpty 2 8).fst 5).snd.countP
      (Event.isPutConnectFor 8) = 1) :=
  ⟨(register_and_deferred_connect pvEmpty 5 5 2 7).2.2.2.2.1 rfl rfl,
   (register_and_deferred_connect pvEmpty 5 5 2 8).2.2.2.2.2.1 rfl⟩

/-- Helper: key-based assignment makes the key resolve to the assigned
factory. -/
theorem lookup_mapInsert_self (k : String) (f : ChannelProviderFactory)
    (m : List (String × ChannelProviderFactory)) :
    List.lookup k (mapInsert k f m) = some f := by
  simp [mapInsert, List.lookup]

/-- Helper: after a key-based erase, the key resolves to nothing. -/
theorem lookup_mapEraseKey (k : String) (m : List (String × ChannelProviderFactory)) :
    List.lookup k (mapEraseKey k m) = none := by
  induction m with
  | nil => rfl
  | cons p rest ih =>
    by_cases hp : p.fst = k
    · simpa [mapEraseKey, List.filter_cons, hp] using ih
    · have hk : (k == p.fst) = false := by
        simp [Ne.symm hp]
      simpa [mapEraseKey, List.filter_cons, hp, List.lookup, hk] using ih

/-- C8 counterexample: registering a factory whose declared name is the
historical alias "pvAccess" and then looking that very name up yields the
empty result, not a provider — the redirect diverts the lookup to "pva"
before the map access. -/
theorem register_pvAccess_lookup_empty :
    ChannelProviderRegistryImpl.getProvider
        (registerChannelProviderFactory regEmpty fPvAccess) "pvAccess" = none ∧
    ChannelProviderRegistryImpl.createProvider
        (registerChannelProviderFactory regEmpty fPvAccess) "pvAccess" = none := by
  constructor <;> rfl

/-- C8 (amended): for every factory whose declared name is not the
historical alias "pvAccess", registering it and then looking up or creating
by that name returns that factory's provider; after unregistering it the
same calls return the empty result; and looking up or creating any name
absent from the map (after redirection) returns the empty result rather
than a fault. -/
theorem register_lookup_roundtrip (reg : Registry) (f : ChannelProviderFactory)
    (n : String) (hn : f.getFactoryName ≠ "pvAccess") :
    (ChannelProviderRegistryImpl.getProvider
        (registerChannelProviderFactory reg f) f.getFactoryName = some f.sharedInstance) ∧
    (ChannelProviderRegistryImpl.createProvider
        (registerChannelProviderFactory reg f) f.getFactoryName = some f.newInstance) ∧
    (ChannelProviderRegistryImpl.getProvider
        (unregisterChannelProviderFactory (registerChannelProviderFactory reg f) f)
        f.getFactoryName = none) ∧
    (ChannelProviderRegistryImpl.createProvider
        (unregisterChannelProviderFactory (registerChannelProviderFactory reg f) f)
        f.getFactoryName = none) ∧
    (List.lookup (canonicalName n) reg.providers = none →
      ChannelProviderRegistryImpl.getProvider reg n = none ∧
      ChannelProviderRegistryImpl.createProvider reg n = none) := by
  have hc : canonicalName f.getFactoryName = f.getFactoryName := by
    simp [canonicalName, hn]
  refine ⟨?_, ?_, ?_, ?_, fun h0 => ?_⟩
  · simp [ChannelProviderRegistryImpl.getProvider, registerChannelProviderFactory,
      hc, lookup_mapInsert_self]
  · simp [ChannelProviderRegistryImpl.createProvider, registerChannelProviderFactory,
      hc, lookup_mapInsert_self]
  · simp [ChannelProviderRegistryImpl.getProvider, unregisterChannelProviderFactory,
      hc, lookup_mapEraseKey]
  · simp [ChannelProviderRegistryImpl.createProvider, unregisterChannelProviderFactory,
      hc, lookup_mapEraseKey]
  · constructor <;>
      simp [ChannelProviderRegistryImpl.getProvider,
        ChannelProviderRegistryImpl.createProvider, h0]

/-- C8 witness: registering the concrete factory named "demo" makes lookup
return its shared instance; after unregistering, lookup returns the empty
result; and the never-registered name "nosuch" returns the empty result. -/
theorem register_lookup_roundtrip_witness :
    (ChannelProviderRegistryImpl.getProvider
        (registerChannelProviderFactory regEmpty fDemo) fDemo.getFactoryName
        = some fDemo.sharedInstance) ∧
    (ChannelProviderRegistryImpl.getProvider
        (unregisterChannelProviderFactory (registerChannelProviderFactory regEmpty fDemo) fDemo)
        fDemo.getFactoryName = none) ∧
    (ChannelProviderRegistryImpl.getProvider regEmpty "nosuch" = none) :=
  ⟨(register_lookup_roundtrip regEmpty fDemo "nosuch" (by decide)).1,
   (register_lookup_roundtrip regEmpty fDemo "nosuch" (by decide)).2.2.1,
   ((register_lookup_roundtrip regEmpty fDemo "nosuch" (by decide)).2.2.2.2 rfl).1⟩

end Pvas
